import Mathlib

/-!
Shallow embedding of `src/script.js` (image content-filtering pipeline).

Conventions of the embedding:
* JS strings are Lean `String`s; character-level work is done on `String.data`.
* JS falsy tests on strings (`!text`) become equality with `""`.
* `sharp` metadata `width`/`height` that is `undefined` or `0` (both falsy in
  `!width || !height`) is modelled as the natural number `0`.
* JS number arithmetic in the crop decision is idealized as exact rational
  arithmetic: `Math.floor(height * 0.7)` becomes `7 * h / 10` (Nat floor
  division) and `width / height > 0.5` becomes `2 * w > h`.
* The external collaborators (tesseract OCR, the OpenAI chat call, the
  filesystem move) are inputs to the per-file step: an `Except` carrying the
  collaborator's reply or its error, and a `Bool` for whether the
  copy-then-delete move succeeds.
-/

/-- `path.join(a, b)` for already-normalized `a` with no trailing separator,
as used in `script.js` (joins with a single `/`). -/
def pathJoin (a b : String) : String := a ++ "/" ++ b

mutual
/-- A directory tree as seen by `fs.readdirSync`/`fs.statSync`: an entry is a
plain file or a directory with an ordered list of child entries. -/
inductive FSTree where
  | file (name : String)
  | dir (name : String) (children : FSList)
/-- An ordered directory listing of `FSTree` entries. -/
inductive FSList where
  | nil
  | cons (e : FSTree) (rest : FSList)
end

mutual
/-- `getAllFiles` of `script.js` lines 37-51 on one entry: recursively
collects the full paths of all plain files below `dirPath`, in traversal
order. -/
def getAllFilesTree (dirPath : String) : FSTree → List String
  | .file n => [pathJoin dirPath n]
  | .dir n cs => getAllFilesList (pathJoin dirPath n) cs
/-- `getAllFiles` of `script.js` lines 37-51 on a directory listing. -/
def getAllFilesList (dirPath : String) : FSList → List String
  | .nil => []
  | .cons e rest => getAllFilesTree dirPath e ++ getAllFilesList dirPath rest
end

/-- Character-list version of `String.prototype.startsWith`. -/
def listStartsWith : List Char → List Char → Bool
  | [], _ => true
  | _ :: _, [] => false
  | a :: as, b :: bs => if a = b then listStartsWith as bs else false

/-- Character-list version of `String.prototype.includes`: `needle` occurs as
a contiguous substring of `hay`. -/
def listIncludes (hay needle : List Char) : Bool :=
  if listStartsWith needle hay then true
  else match hay with
    | [] => false
    | _ :: rest => listIncludes rest needle

/-- `file.includes(needle)` of `script.js` line 125. -/
def strIncludes (hay needle : String) : Bool := listIncludes hay.data needle.data

/-- `String.prototype.toLowerCase`, character by character. -/
def strToLower (s : String) : String := String.mk (s.data.map Char.toLower)

/-- The characters of a path after its last `/` (the basename). -/
def lastComponent (cs : List Char) : List Char :=
  cs.foldl (fun acc c => if c = '/' then [] else acc ++ [c]) []

/-- The suffix of `cs` starting at its last `.`, if any. -/
def lastDotSuffix : List Char → Option (List Char)
  | [] => none
  | c :: rest =>
    match lastDotSuffix rest with
    | some s => some s
    | none => if c = '.' then some (c :: rest) else none

/-- `path.extname`: the extension (including the dot) of the basename of `p`;
empty when the basename has no dot past its first character. -/
def extname (p : String) : String :=
  match lastComponent p.data with
  | [] => ""
  | _ :: rest =>
    match lastDotSuffix rest with
    | some s => String.mk s
    | none => ""

/-- The extension allow-list of `script.js` line 126. -/
def imageExtensions : List String := [".jpg", ".jpeg", ".png", ".gif", ".bmp"]

/-- The filter applied to the scanned files, `script.js` lines 124-127:
drop any path containing `<folder>/dacy` as a substring, keep only paths
whose lower-cased extension is on the allow-list. -/
def scanFilter (folder file : String) : Bool :=
  !(strIncludes file (pathJoin folder "dacy")) &&
    imageExtensions.contains (strToLower (extname file))

/-- The path list `processImages` iterates over, `script.js` lines 124-127:
`getAllFiles(folder)` filtered by `scanFilter`. -/
def scanImages (folder : String) (t : FSList) : List String :=
  (getAllFilesList folder t).filter (scanFilter folder)

/-- `performOcr`, `script.js` lines 54-62: on success every newline of the
recognized text is replaced by a space; on any OCR error the function logs
and returns the empty string. The collaborator's outcome is the input. -/
def performOcr : Except String String → String
  | .ok t => String.mk (t.data.map fun c => if c = '\n' then ' ' else c)
  | .error _ => ""

/-- Observable outcome of one `checkContentWithOpenAI` call: the boolean
verdict, the milliseconds spent in `setTimeout` backoff, and how many times
the chat-completion request was issued. -/
structure ClassifyOutcome where
  verdict : Bool
  waitMs : Nat
  apiCalls : Nat
deriving DecidableEq, Repr

/-- `checkContentWithOpenAI`, `script.js` lines 65-82. The single chat call is
made once; `resp` is its reply text or its error. On success the verdict is
whether the lower-cased reply contains `true`; on failure the code waits
15000 ms and returns `false` without reissuing the request. -/
def checkContentWithOpenAI : Except String String → ClassifyOutcome
  | .ok resp => ⟨strIncludes (strToLower resp) "true", 0, 1⟩
  | .error _ => ⟨false, 15000, 1⟩

/-- The rectangle passed to `sharp(...)` dot `extract`. -/
structure Region where
  left : Nat
  top : Nat
  width : Nat
  height : Nat
deriving DecidableEq, Repr

/-- What one `cropImage` call does to the file at its path. -/
inductive CropOutcome where
  | cropped (r : Region)
  | deleted
  | noDims
deriving DecidableEq, Repr

/-- `cropImage`, `script.js` lines 85-120, as a function of the metadata
width `w` and height `h` (`0` models a falsy `width`/`height`).
Branches in source order: `height <= width` crops the top portion of full
width and height `Math.floor(height * 0.7)`; `height > width` crops the
top-left `width`-by-`width` square; otherwise, when `width / height > 0.5`,
the file is deleted. -/
def cropImage (w h : Nat) : CropOutcome :=
  if w = 0 ∨ h = 0 then .noDims
  else if h ≤ w then .cropped ⟨0, 0, w, 7 * h / 10⟩
  else if h > w then .cropped ⟨0, 0, w, w⟩
  else if 2 * w > h then .deleted
  else .noDims

/-- Whether a crop outcome removed the file from its source path. -/
def cropRemovesFile : CropOutcome → Bool
  | .deleted => true
  | _ => false

/-- Whether a crop outcome rewrote the file's content in place. -/
def cropModifiesFile : CropOutcome → Bool
  | .cropped _ => true
  | _ => false

/-- The external-collaborator outcomes for one file of the main loop:
the OCR result, the classifier reply, whether the quarantine
copy-then-delete succeeds, and the image's pixel dimensions. -/
structure FileEnv where
  ocr : Except String String
  classifyResp : Except String String
  moveOk : Bool
  width : Nat
  height : Nat

/-- Observable effects of one iteration of the `processImages` loop. -/
structure FileResult where
  classifierInvoked : Bool
  transformInvoked : Bool
  quarantined : Bool
  sourceRemoved : Bool
  filteredDelta : Nat
  crop : Option CropOutcome
  sourceModified : Bool
deriving DecidableEq, Repr

/-- One iteration of the `processImages` loop, `script.js` lines 133-168:
empty text skips the file; flagged text increments `filtered`, then tries the
copy-then-delete move and `continue`s on success; on move failure, and for
unflagged text, `cropImage` runs. -/
def processOne (env : FileEnv) : FileResult :=
  let text := performOcr env.ocr
  if text = "" then
    ⟨false, false, false, false, 0, none, false⟩
  else
    let verdict := (checkContentWithOpenAI env.classifyResp).verdict
    if verdict then
      if env.moveOk then
        ⟨true, false, true, true, 1, none, false⟩
      else
        let c := cropImage env.width env.height
        ⟨true, true, false, cropRemovesFile c, 1, some c, cropModifiesFile c⟩
    else
      let c := cropImage env.width env.height
      ⟨true, true, false, cropRemovesFile c, 0, some c, cropModifiesFile c⟩

/-- The run's `filtered` counter, `script.js` lines 131-171: the sum of the
per-file increments over the processed list. -/
def filteredTotal (envs : List FileEnv) : Nat :=
  (envs.map fun e => (processOne e).filteredDelta).sum

/-! ## Helper lemmas -/

theorem listStartsWith_append (l t : List Char) : listStartsWith l (l ++ t) = true := by
  induction l with
  | nil => rfl
  | cons a as ih => simp [listStartsWith, ih]

theorem listIncludes_of_startsWith (hay needle : List Char)
    (h : listStartsWith needle hay = true) : listIncludes hay needle = true := by
  unfold listIncludes
  simp [h]

theorem strIncludes_of_data_append (p d : String) (s : List Char)
    (h : p.data = d.data ++ s) : strIncludes p d = true := by
  unfold strIncludes
  rw [h]
  exact listIncludes_of_startsWith _ _ (listStartsWith_append d.data s)

theorem strIncludes_pathJoin (folder rest : String) :
    strIncludes (pathJoin (pathJoin folder "dacy") rest) (pathJoin folder "dacy") = true := by
  apply strIncludes_of_data_append _ _ ("/".data ++ rest.data)
  unfold pathJoin
  rw [String.data_append, String.data_append, List.append_assoc]

theorem scanImages_excludes_substring (folder : String) (t : FSList) (p : String)
    (h : strIncludes p (pathJoin folder "dacy") = true) : p ∉ scanImages folder t := by
  intro hmem
  have hf := (List.mem_filter.mp hmem).2
  unfold scanFilter at hf
  simp [h] at hf

theorem cropImage_ne_deleted (w h : Nat) : cropImage w h ≠ CropOutcome.deleted := by
  intro hcontra
  unfold cropImage at hcontra
  by_cases h0 : w = 0 ∨ h = 0
  · simp [h0] at hcontra
  · by_cases hle : h ≤ w
    · simp [h0, hle] at hcontra
    · have hgt : h > w := by omega
      simp [h0, hle, hgt] at hcontra

theorem cropRemovesFile_cropImage (w h : Nat) : cropRemovesFile (cropImage w h) = false := by
  cases hc : cropImage w h with
  | cropped r => rfl
  | deleted => exact absurd hc (cropImage_ne_deleted w h)
  | noDims => rfl

/-! ## Claim theorems -/

/-- Claim C1, counterexample: at a concrete file whose text is flagged
(classifier reply `TRUE`) but whose quarantine move fails (`moveOk = false`),
the source file stays in place, the file is not quarantined, and yet the
`filtered` counter is still incremented — refuting "the quarantine counter is
incremented only when the quarantine move succeeds". -/
theorem C1_counterexample :
    (checkContentWithOpenAI (Except.ok "TRUE")).verdict = true ∧
      (processOne ⟨Except.ok "some text", Except.ok "TRUE", false, 100, 50⟩).quarantined = false ∧
      (processOne ⟨Except.ok "some text", Except.ok "TRUE", false, 100, 50⟩).sourceRemoved = false ∧
      (processOne ⟨Except.ok "some text", Except.ok "TRUE", false, 100, 50⟩).filteredDelta = 1 := by
  decide

/-- Claim C1, amended: the `filtered` counter is incremented whenever the
verdict is flagged, before the move is attempted; when the copy or delete
fails the source file is left in place (and the file falls through to the
transform step), but it is still counted in the run statistics. -/
theorem C1_flagged_counted_regardless (env : FileEnv) (ht : performOcr env.ocr ≠ "")
    (hv : (checkContentWithOpenAI env.classifyResp).verdict = true) :
    (processOne env).filteredDelta = 1 ∧
      (env.moveOk = false →
        (processOne env).quarantined = false ∧ (processOne env).sourceRemoved = false ∧
          (processOne env).transformInvoked = true) := by
  cases hm : env.moveOk <;>
    simp [processOne, ht, hv, hm, cropRemovesFile_cropImage]

/-- Claim C1, amended, witness at a concrete flagged file with a failing
move. -/
theorem C1_flagged_counted_regardless_witness :
    (processOne ⟨Except.ok "some text", Except.ok "true", false, 100, 50⟩).filteredDelta = 1 ∧
      ((⟨Except.ok "some text", Except.ok "true", false, 100, 50⟩ : FileEnv).moveOk = false →
        (processOne ⟨Except.ok "some text", Except.ok "true", false, 100, 50⟩).quarantined = false ∧
          (processOne ⟨Except.ok "some text", Except.ok "true", false, 100, 50⟩).sourceRemoved = false ∧
          (processOne ⟨Except.ok "some text", Except.ok "true", false, 100, 50⟩).transformInvoked = true) :=
  C1_flagged_counted_regardless ⟨Except.ok "some text", Except.ok "true", false, 100, 50⟩
    (by decide) (by decide)

/-- Claim C2: the delete branch of `cropImage` is unreachable — for all
metadata widths and heights the outcome is never `deleted`, because the
`height <= width` and `height > width` tests are exhaustive. -/
theorem C2_crop_never_deletes : ∀ w h : Nat, cropImage w h ≠ CropOutcome.deleted :=
  cropImage_ne_deleted

/-- Claim C3: whenever the chat-completion call fails, for any error,
`checkContentWithOpenAI` waits exactly 15000 ms once, returns the verdict
`false`, and does not issue the request a second time. -/
theorem C3_classifier_fail_open (r : Except String String) (msg : String)
    (h : r = Except.error msg) :
    checkContentWithOpenAI r = ⟨false, 15000, 1⟩ := by
  subst h
  rfl

/-- Claim C3, witness at a concrete failing call. -/
theorem C3_classifier_fail_open_witness :
    checkContentWithOpenAI (Except.error "network error") = ⟨false, 15000, 1⟩ :=
  C3_classifier_fail_open _ "network error" rfl

/-- Claim C4: for positive dimensions with `h <= w` (landscape or square),
`cropImage` extracts the top-left-anchored region of full width `w` and
height `floor(h * 0.7)`. -/
theorem C4_landscape_crop (w h : Nat) (hw : 0 < w) (hh : 0 < h) (hle : h ≤ w) :
    cropImage w h = CropOutcome.cropped ⟨0, 0, w, 7 * h / 10⟩ := by
  unfold cropImage
  rw [if_neg (by omega), if_pos hle]

/-- Claim C4, witness: a 1000 by 500 landscape image is cropped to
1000 by 350 at the top-left. -/
theorem C4_landscape_crop_witness :
    (0 : Nat) < 1000 ∧ (0 : Nat) < 500 ∧ (500 : Nat) ≤ 1000 ∧
      cropImage 1000 500 = CropOutcome.cropped ⟨0, 0, 1000, 350⟩ :=
  ⟨by decide, by decide, by decide, C4_landscape_crop 1000 500 (by decide) (by decide) (by decide)⟩

/-- Claim C5: for positive dimensions with `h > w` (portrait), `cropImage`
extracts the top-left square region of side `w`. -/
theorem C5_portrait_crop (w h : Nat) (hw : 0 < w) (hgt : w < h) :
    cropImage w h = CropOutcome.cropped ⟨0, 0, w, w⟩ := by
  unfold cropImage
  rw [if_neg (by omega), if_neg (by omega), if_pos (by omega)]

/-- Claim C5, witness: a 400 by 800 portrait image is cropped to the
top-left 400 by 400 square. -/
theorem C5_portrait_crop_witness :
    (0 : Nat) < 400 ∧ (400 : Nat) < 800 ∧
      cropImage 400 800 = CropOutcome.cropped ⟨0, 0, 400, 400⟩ :=
  ⟨by decide, by decide, C5_portrait_crop 400 800 (by decide) (by decide)⟩

/-- Claim C6: for every file whose extracted text is nonempty, quarantine is
terminal — a flagged verdict with a successful move means `cropImage` is
never invoked — and `cropImage` is invoked exactly when the verdict is not
flagged or the move failed. -/
theorem C6_quarantine_terminal (env : FileEnv) (ht : performOcr env.ocr ≠ "") :
    ((checkContentWithOpenAI env.classifyResp).verdict = true → env.moveOk = true →
      (processOne env).quarantined = true ∧ (processOne env).transformInvoked = false) ∧
    ((processOne env).transformInvoked = true ↔
      ((checkContentWithOpenAI env.classifyResp).verdict = false ∨ env.moveOk = false)) := by
  cases hv : (checkContentWithOpenAI env.classifyResp).verdict <;>
    cases hm : env.moveOk <;> simp [processOne, ht, hv, hm]

/-- Claim C6, witness at a concrete flagged file whose move succeeds. -/
theorem C6_quarantine_terminal_witness :
    performOcr (Except.ok "some text") ≠ "" ∧
      (((checkContentWithOpenAI (⟨Except.ok "some text", Except.ok "TRUE", true, 10, 10⟩ : FileEnv).classifyResp).verdict = true →
          (⟨Except.ok "some text", Except.ok "TRUE", true, 10, 10⟩ : FileEnv).moveOk = true →
          (processOne ⟨Except.ok "some text", Except.ok "TRUE", true, 10, 10⟩).quarantined = true ∧
            (processOne ⟨Except.ok "some text", Except.ok "TRUE", true, 10, 10⟩).transformInvoked = false) ∧
        ((processOne ⟨Except.ok "some text", Except.ok "TRUE", true, 10, 10⟩).transformInvoked = true ↔
          ((checkContentWithOpenAI (⟨Except.ok "some text", Except.ok "TRUE", true, 10, 10⟩ : FileEnv).classifyResp).verdict = false ∨
            (⟨Except.ok "some text", Except.ok "TRUE", true, 10, 10⟩ : FileEnv).moveOk = false))) :=
  ⟨by decide, C6_quarantine_terminal ⟨Except.ok "some text", Except.ok "TRUE", true, 10, 10⟩ (by decide)⟩

/-- Claim C7: every path in the scanner's output has a lower-cased extension
on the allow-list, and no path under the quarantine folder `<folder>/dacy`
occurs in the output. -/
theorem C7_scan_output_invariant (folder : String) (t : FSList) (p rest : String)
    (hp : p ∈ scanImages folder t) :
    strToLower (extname p) ∈ imageExtensions ∧ p ≠ pathJoin (pathJoin folder "dacy") rest := by
  have hf := (List.mem_filter.mp hp).2
  unfold scanFilter at hf
  rw [Bool.and_eq_true] at hf
  refine ⟨by simpa using hf.2, ?_⟩
  intro heq
  have hinc : strIncludes p (pathJoin folder "dacy") = true := by
    rw [heq]
    exact strIncludes_pathJoin folder rest
  simp [hinc] at hf

/-- Claim C7, witness: a concrete scan containing one root image and one
image inside the quarantine folder. -/
theorem C7_scan_output_invariant_witness :
    "root/a.png" ∈ scanImages "root"
        (FSList.cons (FSTree.file "a.png")
          (FSList.cons (FSTree.dir "dacy" (FSList.cons (FSTree.file "q.png") FSList.nil))
            FSList.nil)) ∧
      (strToLower (extname "root/a.png") ∈ imageExtensions ∧
        "root/a.png" ≠ pathJoin (pathJoin "root" "dacy") "q.png") :=
  ⟨by decide,
    C7_scan_output_invariant "root"
      (FSList.cons (FSTree.file "a.png")
        (FSList.cons (FSTree.dir "dacy" (FSList.cons (FSTree.file "q.png") FSList.nil))
          FSList.nil))
      "root/a.png" "q.png" (by decide)⟩

/-- Claim C8: a file whose extracted text is empty is skipped outright — the
classifier is not invoked, no transform runs, nothing is removed or
modified, it is not quarantined and not counted. -/
theorem C8_empty_text_skipped (env : FileEnv) (ht : performOcr env.ocr = "") :
    processOne env = ⟨false, false, false, false, 0, none, false⟩ := by
  simp [processOne, ht]

/-- Claim C8, witness: a file whose OCR call fails yields empty text and is
skipped untouched. -/
theorem C8_empty_text_skipped_witness :
    processOne ⟨Except.error "ocr failed", Except.ok "TRUE", true, 10, 10⟩ =
      ⟨false, false, false, false, 0, none, false⟩ :=
  C8_empty_text_skipped ⟨Except.error "ocr failed", Except.ok "TRUE", true, 10, 10⟩ rfl

/-- Claim C9: on a second run, files inside the quarantine folder are never
scanned (so quarantined files stay unchanged), while the crop decision is not
idempotent — an already-cropped square image of side `w` is cropped again to
`w` by `floor(w * 0.7)`, a strict further shrink. -/
theorem C9_second_run (folder : String) (t : FSList) (p rest : String)
    (hquar : p = pathJoin (pathJoin folder "dacy") rest) (w : Nat) (hw : 0 < w) :
    p ∉ scanImages folder t ∧
      cropImage w w = CropOutcome.cropped ⟨0, 0, w, 7 * w / 10⟩ ∧ 7 * w / 10 < w := by
  refine ⟨?_, ?_, ?_⟩
  · apply scanImages_excludes_substring
    rw [hquar]
    exact strIncludes_pathJoin folder rest
  · unfold cropImage
    rw [if_neg (by omega), if_pos (le_refl w)]
  · omega

/-- Claim C9, witness: a concrete quarantined path is not rescanned, and a
10 by 10 square shrinks to 10 by 7 on the second crop. -/
theorem C9_second_run_witness :
    "r/dacy/x.png" = pathJoin (pathJoin "r" "dacy") "x.png" ∧ (0 : Nat) < 10 ∧
      ("r/dacy/x.png" ∉ scanImages "r" (FSList.cons (FSTree.file "a.png") FSList.nil) ∧
        cropImage 10 10 = CropOutcome.cropped ⟨0, 0, 10, 7⟩ ∧ (7 : Nat) * 10 / 10 < 10) :=
  ⟨by decide, by decide,
    C9_second_run "r" (FSList.cons (FSTree.file "a.png") FSList.nil) "r/dacy/x.png" "x.png"
      (by decide) 10 (by decide)⟩

/-- Claim C10: the quarantine exclusion is a substring test — any path that
contains `<folder>/dacy` anywhere, even outside the quarantine folder
proper, never appears in the scanner's output. -/
theorem C10_substring_exclusion (folder : String) (t : FSList) (p : String)
    (h : strIncludes p (pathJoin folder "dacy") = true) :
    p ∉ scanImages folder t :=
  scanImages_excludes_substring folder t p h

/-- Claim C10, witness: `root/dacy-old/a.png` lives in a sibling directory of
the quarantine folder and is listed by the traversal, yet it is excluded from
the scan because its path contains `root/dacy` as a substring. -/
theorem C10_substring_exclusion_witness :
    strIncludes "root/dacy-old/a.png" (pathJoin "root" "dacy") = true ∧
      "root/dacy-old/a.png" ∈ getAllFilesList "root"
        (FSList.cons (FSTree.dir "dacy-old" (FSList.cons (FSTree.file "a.png") FSList.nil))
          FSList.nil) ∧
      "root/dacy-old/a.png" ∉ scanImages "root"
        (FSList.cons (FSTree.dir "dacy-old" (FSList.cons (FSTree.file "a.png") FSList.nil))
          FSList.nil) :=
  ⟨by decide, by decide,
    C10_substring_exclusion "root"
      (FSList.cons (FSTree.dir "dacy-old" (FSList.cons (FSTree.file "a.png") FSList.nil))
        FSList.nil)
      "root/dacy-old/a.png" (by decide)⟩
